import Mathlib

/-! Shallow embedding of the two hardware-control daemons of
acer-nitro-57-extensions: Boreas (EC fan control) and Prometheus
(CPU frequency/turbo control).  Hardware surfaces are modelled as
failure-injecting oracles indexed by the sequence number of the
attempted write; a state records the writes that were actually
applied, in order. -/

/-- Rust str contains: the needle occurs as a contiguous substring of the hay. -/
def strContains (hay needle : String) : Bool :=
  decide (needle.data <:+: hay.data)

/-- ASCII whitespace, the fragment of Rust char is_whitespace relevant to
DMI product-name strings. -/
def isWhite (c : Char) : Bool :=
  c.toNat == 32 || c.toNat == 9 || c.toNat == 10 || c.toNat == 13

/-- Rust str trim: drop whitespace from both ends. -/
def trimChars (l : List Char) : List Char :=
  ((l.dropWhile isWhite).reverse.dropWhile isWhite).reverse

/-- Rust str trim lifted to String. -/
def strTrim (s : String) : String := ⟨trimChars s.data⟩

/-- ASCII lowercasing of one code point, the fragment of Rust to_lowercase
relevant to profile names. -/
def lowerNat (n : Nat) : Nat :=
  if 65 ≤ n ∧ n ≤ 90 then n + 32 else n

/-- The case-folded key of a string: its code points, ASCII-lowercased.
Comparing keys is comparing Rust to_lowercase results. -/
def lowerKey (s : String) : List Nat :=
  s.data.map (fun c => lowerNat c.toNat)

/-- Errors crossing the bus boundary: zbus fdo InvalidArgs and Failed. -/
inductive ServiceError where
  | InvalidArgs : String → ServiceError
  | Failed : String → ServiceError
deriving DecidableEq

namespace Boreas

def SUPPORTED_MODELS : List String := ["Nitro AN515-57"]

/-- The verify_hardware check from boreas main.rs: the product-name file content is
modelled as an Option String, none meaning the read failed. -/
def verify_hardware (product_name_file : Option String) : Except String Unit :=
  match product_name_file with
  | none => .error "Failed to read DMI product name. Are you running on physical hardware?"
  | some raw =>
    let product_name := strTrim raw
    if SUPPORTED_MODELS.any (fun model => strContains product_name model) then
      .ok ()
    else
      .error ("Hardware safety check failed. Detected: " ++ product_name)

def REG_MANUAL_CONTROL : Nat := 3
def REG_GPU_FAN_MODE : Nat := 33
def REG_CPU_FAN_MODE : Nat := 34
def REG_CPU_FAN_WRITE : Nat := 55
def REG_GPU_FAN_WRITE : Nat := 58

def VAL_MANUAL_CONTROL_ENABLE : Nat := 17
def VAL_CPU_FAN_MANUAL : Nat := 12
def VAL_GPU_FAN_MANUAL : Nat := 48
def VAL_MANUAL_CONTROL_DISABLE : Nat := 0
def VAL_CPU_FAN_AUTO : Nat := 4
def VAL_GPU_FAN_AUTO : Nat := 16

inductive FanProfile where
  | Silent
  | Balanced
  | MaxPower
  | Auto
deriving DecidableEq

def FanProfile.cpu_speed : FanProfile → Nat
  | .Silent => 25
  | .Balanced => 50
  | .MaxPower => 100
  | .Auto => 50

def FanProfile.gpu_speed : FanProfile → Nat
  | .Silent => 25
  | .Balanced => 50
  | .MaxPower => 100
  | .Auto => 50

/-- Debug-format name of a profile, as produced by the Rust derive. -/
def FanProfile.name : FanProfile → String
  | .Silent => "Silent"
  | .Balanced => "Balanced"
  | .MaxPower => "MaxPower"
  | .Auto => "Auto"

/-- The EC hardware surface: decides, by attempted-write sequence number,
whether a write_register call fails and with what I/O error text. -/
structure EcSurface where
  failAt : Nat → Option String

/-- State of the simulated EC: number of attempted writes so far, and the
writes (register, value) actually applied, in order. -/
structure EcState where
  idx : Nat
  applied : List (Nat × Nat)
deriving DecidableEq

def ecInit : EcState := ⟨0, []⟩

/-- One write_register call: one seek+write+flush against the EC file, which the
surface may fail; a failed write is not applied. -/
def write_register (surf : EcSurface) (st : EcState) (register value : Nat) :
    EcState × Option String :=
  match surf.failAt st.idx with
  | some e => (⟨st.idx + 1, st.applied⟩, some e)
  | none => (⟨st.idx + 1, st.applied ++ [(register, value)]⟩, none)

/-- Sequence a further write after a previous step, short-circuiting on error
(the Rust question-mark operator). -/
def andThenWrite (surf : EcSurface) (p : EcState × Option String) (register value : Nat) :
    EcState × Option String :=
  match p with
  | (st, none) => write_register surf st register value
  | (st, some e) => (st, some e)

def init_manual_control (surf : EcSurface) (st : EcState) : EcState × Option String :=
  andThenWrite surf
    (andThenWrite surf
      (write_register surf st REG_MANUAL_CONTROL VAL_MANUAL_CONTROL_ENABLE)
      REG_CPU_FAN_MODE VAL_CPU_FAN_MANUAL)
    REG_GPU_FAN_MODE VAL_GPU_FAN_MANUAL

def restore_auto_control (surf : EcSurface) (st : EcState) : EcState × Option String :=
  andThenWrite surf
    (andThenWrite surf
      (write_register surf st REG_CPU_FAN_MODE VAL_CPU_FAN_AUTO)
      REG_GPU_FAN_MODE VAL_GPU_FAN_AUTO)
    REG_MANUAL_CONTROL VAL_MANUAL_CONTROL_DISABLE

def validate_fan_speed (speed : Nat) : Except String Nat :=
  if speed > 100 then
    .error ("Invalid fan speed: " ++ toString speed ++ ". Must be 0-100.")
  else
    .ok speed

def set_fan_speeds (surf : EcSurface) (st : EcState) (cpu_speed gpu_speed : Nat) :
    EcState × Option String :=
  match validate_fan_speed cpu_speed with
  | .error e => (st, some e)
  | .ok cpu =>
    match validate_fan_speed gpu_speed with
    | .error e => (st, some e)
    | .ok gpu =>
      andThenWrite surf (write_register surf st REG_CPU_FAN_WRITE cpu)
        REG_GPU_FAN_WRITE gpu

/-- The case-insensitive profile-name lookup of set_fan_profile: the Rust
code matches to_lowercase(profile) against lowercase literals. -/
def parse_profile (profile : String) : Option FanProfile :=
  if lowerKey profile = lowerKey "silent" then some .Silent
  else if lowerKey profile = lowerKey "balanced" then some .Balanced
  else if lowerKey profile = lowerKey "maxpower" then some .MaxPower
  else if lowerKey profile = lowerKey "max_power" then some .MaxPower
  else if lowerKey profile = lowerKey "max" then some .MaxPower
  else if lowerKey profile = lowerKey "auto" then some .Auto
  else none

/-- The hardware sequence run by set_fan_profile once the name resolved:
restore_auto_control for Auto, else init_manual_control then set_fan_speeds. -/
def run_profile (surf : EcSurface) (st : EcState) (p : FanProfile) :
    EcState × Option String :=
  if p = FanProfile.Auto then
    restore_auto_control surf st
  else
    match init_manual_control surf st with
    | (st2, some e) => (st2, some e)
    | (st2, none) => set_fan_speeds surf st2 p.cpu_speed p.gpu_speed

/-- Service state: the simulated EC plus the CurrentProfileState cell. -/
structure BoreasState where
  ec : EcState
  current_profile : FanProfile
deriving DecidableEq

/-- Initial service state of the daemon: current_profile starts at Auto. -/
def initial_state : BoreasState := ⟨ecInit, .Auto⟩

def set_fan_profile (surf : EcSurface) (st : BoreasState) (profile : String) :
    BoreasState × Except ServiceError String :=
  match parse_profile profile with
  | none =>
    (st, .error (.InvalidArgs
      ("Unknown profile: " ++ profile ++ ". Valid: silent, balanced, maxpower, auto")))
  | some profile_enum =>
    match run_profile surf st.ec profile_enum with
    | (ec2, some e) =>
      (⟨ec2, st.current_profile⟩, .error (.Failed ("EC error: " ++ e)))
    | (ec2, none) =>
      (⟨ec2, profile_enum⟩, .ok ("Fan profile set to: " ++ profile))

def get_current_profile (st : BoreasState) : String :=
  st.current_profile.name

end Boreas

namespace Prometheus

def SUPPORTED_MODELS : List String := ["Nitro AN515-57"]

/-- The verify_hardware check from prometheus main.rs, same modelling as for Boreas. -/
def verify_hardware (product_name_file : Option String) : Except String Unit :=
  match product_name_file with
  | none => .error "Failed to read DMI product name. Are you running on physical hardware?"
  | some raw =>
    let product_name := strTrim raw
    if SUPPORTED_MODELS.any (fun model => strContains product_name model) then
      .ok ()
    else
      .error ("Hardware safety check failed. Detected: " ++ product_name)

def TURBO_PATH : String := "/sys/devices/system/cpu/intel_pstate/no_turbo"

inductive PerformanceProfile where
  | Silent
  | Balanced
  | WarSpeed
deriving DecidableEq

def PerformanceProfile.governor : PerformanceProfile → String
  | .Silent => "powersave"
  | .Balanced => "powersave"
  | .WarSpeed => "performance"

def PerformanceProfile.epp : PerformanceProfile → String
  | .Silent => "power"
  | .Balanced => "balance_performance"
  | .WarSpeed => "performance"

def PerformanceProfile.turbo_enabled : PerformanceProfile → Bool
  | .Silent => false
  | .Balanced => true
  | .WarSpeed => true

/-- Debug-format name of a profile, as produced by the Rust derive. -/
def PerformanceProfile.name : PerformanceProfile → String
  | .Silent => "Silent"
  | .Balanced => "Balanced"
  | .WarSpeed => "WarSpeed"

/-- The sysfs hardware surface: the outcome of the two glob expansions
(an error, or the matched per-CPU paths) and, by attempted-write sequence
number, whether an fs write fails and with what I/O error text. -/
structure CpuSurface where
  govGlobError : Option String
  eppGlobError : Option String
  govPaths : List String
  eppPaths : List String
  failAt : Nat → Option String

/-- State of the simulated sysfs tree: number of attempted writes so far, and
the writes (path, value) actually applied, in order. -/
structure CpuState where
  idx : Nat
  applied : List (String × String)
deriving DecidableEq

def cpuInit : CpuState := ⟨0, []⟩

/-- One fs write of a value to one control file, which the surface may fail;
a failed write is not applied. -/
def fs_write (surf : CpuSurface) (st : CpuState) (path value : String) :
    CpuState × Option String :=
  match surf.failAt st.idx with
  | some e => (⟨st.idx + 1, st.applied⟩, some e)
  | none => (⟨st.idx + 1, st.applied ++ [(path, value)]⟩, none)

/-- The write loop of set_governor: writes the value to every path in order,
short-circuiting on the first failure (question-mark on each fs write). -/
def write_all (surf : CpuSurface) (st : CpuState) (paths : List String) (value : String) :
    CpuState × Option String :=
  match paths with
  | [] => (st, none)
  | p :: rest =>
    match fs_write surf st p value with
    | (st2, some e) => (st2, some ("Failed to write to " ++ p ++ ": " ++ e))
    | (st2, none) => write_all surf st2 rest value

/-- The write loop of set_epp: writes the value to every path in order, only
logging failures and never propagating them. -/
def write_all_lossy (surf : CpuSurface) (st : CpuState) (paths : List String)
    (value : String) : CpuState :=
  match paths with
  | [] => st
  | p :: rest => write_all_lossy surf (fs_write surf st p value).1 rest value

def set_governor (surf : CpuSurface) (st : CpuState) (governor : String) :
    CpuState × Option String :=
  match surf.govGlobError with
  | some _ => (st, some "Failed to glob governor paths")
  | none =>
    if surf.govPaths.isEmpty then
      (st, some "No CPU governor control files found")
    else
      write_all surf st surf.govPaths governor

def set_epp (surf : CpuSurface) (st : CpuState) (epp : String) :
    CpuState × Option String :=
  match surf.eppGlobError with
  | some _ => (st, some "Failed to glob EPP paths")
  | none =>
    if surf.eppPaths.isEmpty then
      (st, none)
    else
      (write_all_lossy surf st surf.eppPaths epp, none)

def set_turbo (surf : CpuSurface) (st : CpuState) (enabled : Bool) :
    CpuState × Option String :=
  match fs_write surf st TURBO_PATH (if enabled then "0" else "1") with
  | (st2, some e) => (st2, some ("Failed to write turbo setting: " ++ e))
  | (st2, none) => (st2, none)

def apply_profile (surf : CpuSurface) (st : CpuState) (profile : PerformanceProfile) :
    CpuState × Option String :=
  match set_governor surf st profile.governor with
  | (st2, some e) => (st2, some e)
  | (st2, none) =>
    match set_epp surf st2 profile.epp with
    | (st3, some e) => (st3, some e)
    | (st3, none) => set_turbo surf st3 profile.turbo_enabled

/-- The case-insensitive profile-name lookup of set_performance_profile. -/
def parse_profile (profile : String) : Option PerformanceProfile :=
  if lowerKey profile = lowerKey "silent" then some .Silent
  else if lowerKey profile = lowerKey "balanced" then some .Balanced
  else if lowerKey profile = lowerKey "warspeed" then some .WarSpeed
  else if lowerKey profile = lowerKey "war_speed" then some .WarSpeed
  else none

/-- Service state: the simulated sysfs tree plus the CurrentProfileState cell. -/
structure PrometheusState where
  cpu : CpuState
  current_profile : Option PerformanceProfile
deriving DecidableEq

/-- Initial service state of the daemon: current_profile starts at None. -/
def initial_state : PrometheusState := ⟨cpuInit, none⟩

def set_performance_profile (surf : CpuSurface) (st : PrometheusState) (profile : String) :
    PrometheusState × Except ServiceError String :=
  match parse_profile profile with
  | none =>
    (st, .error (.InvalidArgs
      ("Unknown profile: " ++ profile ++ ". Valid: silent, balanced, warspeed")))
  | some profile_enum =>
    match apply_profile surf st.cpu profile_enum with
    | (cpu2, some e) =>
      (⟨cpu2, st.current_profile⟩, .error (.Failed ("CPU control error: " ++ e)))
    | (cpu2, none) =>
      (⟨cpu2, some profile_enum⟩, .ok ("Performance profile set to: " ++ profile))

def get_current_profile (st : PrometheusState) : String :=
  match st.current_profile with
  | some profile => profile.name
  | none => "Unknown"

end Prometheus

/-! Concrete hardware surfaces used to exercise the model. -/

/-- An EC surface on which every write succeeds. -/
def okEc : Boreas.EcSurface := ⟨fun _ => none⟩

/-- An EC surface whose very first write fails. -/
def ecFail1 : Boreas.EcSurface := ⟨fun i => if i = 0 then some "boom" else none⟩

/-- An EC surface whose 4th write (sequence number 3) fails. -/
def ecFail4 : Boreas.EcSurface :=
  ⟨fun i => if i = 3 then some "Input/output error" else none⟩

/-- A sysfs surface with two governor files, one EPP file, all writes fine. -/
def okCpu : Prometheus.CpuSurface :=
  ⟨none, none, ["gov0", "gov1"], ["epp0"], fun _ => none⟩

/-- A sysfs surface whose governor glob matches nothing. -/
def emptyGovCpu : Prometheus.CpuSurface :=
  ⟨none, none, [], ["epp0"], fun _ => none⟩

/-- A sysfs surface whose EPP glob matches nothing. -/
def noEppCpu : Prometheus.CpuSurface :=
  ⟨none, none, ["gov0", "gov1"], [], fun _ => none⟩

/-- A sysfs surface on which the sole EPP write (sequence number 1, right
after the single governor write) fails. -/
def eppFailCpu : Prometheus.CpuSurface :=
  ⟨none, none, ["gov0"], ["epp0"], fun i => if i = 1 then some "Permission denied" else none⟩

/-! Helper lemmas about the write loops. -/

/-- A short-circuiting write loop on which no attempted write fails applies
the value to every path, in order. -/
theorem Prometheus.write_all_succeeds (surf : Prometheus.CpuSurface)
    (paths : List String) :
    ∀ (st : Prometheus.CpuState) (value : String),
      (∀ i, i < paths.length → surf.failAt (st.idx + i) = none) →
      Prometheus.write_all surf st paths value =
        (⟨st.idx + paths.length, st.applied ++ paths.map (fun q => (q, value))⟩, none) := by
  induction paths with
  | nil =>
    intro st value _
    simp [Prometheus.write_all]
  | cons q rest ih =>
    intro st value h
    have h0 : surf.failAt st.idx = none := by simpa using h 0 (by simp)
    simp only [Prometheus.write_all, Prometheus.fs_write, h0]
    rw [ih ⟨st.idx + 1, st.applied ++ [(q, value)]⟩ value ?_]
    · simp only [Prod.mk.injEq, Prometheus.CpuState.mk.injEq, List.map_cons,
        List.append_assoc, List.singleton_append, List.length_cons, and_true, true_and]
      omega
    · intro i hi
      have := h (i + 1) (by simpa using Nat.succ_lt_succ hi)
      simpa [Nat.add_assoc, Nat.add_comm 1 i] using this

/-- The lossy write loop always attempts exactly one write per path. -/
theorem Prometheus.write_all_lossy_idx (surf : Prometheus.CpuSurface)
    (paths : List String) :
    ∀ (st : Prometheus.CpuState) (value : String),
      (Prometheus.write_all_lossy surf st paths value).idx = st.idx + paths.length := by
  induction paths with
  | nil =>
    intro st value
    simp [Prometheus.write_all_lossy]
  | cons q rest ih =>
    intro st value
    rw [Prometheus.write_all_lossy, ih]
    rcases hq : surf.failAt st.idx <;> simp [Prometheus.fs_write, hq] <;> omega

/-- The lossy write loop only ever appends to the applied trace. -/
theorem Prometheus.write_all_lossy_applied (surf : Prometheus.CpuSurface)
    (paths : List String) :
    ∀ (st : Prometheus.CpuState) (value : String),
      ∃ l, (Prometheus.write_all_lossy surf st paths value).applied = st.applied ++ l := by
  induction paths with
  | nil =>
    intro st value
    exact ⟨[], by simp [Prometheus.write_all_lossy]⟩
  | cons q rest ih =>
    intro st value
    rw [Prometheus.write_all_lossy]
    obtain ⟨l, hl⟩ := ih (Prometheus.fs_write surf st q value).1 value
    rcases hq : surf.failAt st.idx with _ | e
    · refine ⟨(q, value) :: l, ?_⟩
      rw [hl]
      simp [Prometheus.fs_write, hq]
    · refine ⟨l, ?_⟩
      rw [hl]
      simp [Prometheus.fs_write, hq]

/-- On a surface where no attempted write fails, the lossy write loop applies
the value to every path, in order. -/
theorem Prometheus.write_all_lossy_succeeds (surf : Prometheus.CpuSurface)
    (paths : List String) :
    ∀ (st : Prometheus.CpuState) (value : String),
      (∀ i, surf.failAt i = none) →
      Prometheus.write_all_lossy surf st paths value =
        ⟨st.idx + paths.length, st.applied ++ paths.map (fun q => (q, value))⟩ := by
  induction paths with
  | nil =>
    intro st value _
    simp [Prometheus.write_all_lossy]
  | cons q rest ih =>
    intro st value h
    rw [Prometheus.write_all_lossy, ih _ _ h]
    simp only [Prometheus.fs_write, h st.idx, Prometheus.CpuState.mk.injEq, List.map_cons,
      List.append_assoc, List.singleton_append, List.length_cons, and_true, true_and]
    omega

/-- With both globs succeeding, at least one governor path, and no failing
write, apply_profile applies the governor to every matched path, then the
energy preference to every matched path, then the inverted turbo flag. -/
theorem Prometheus.apply_profile_ok (surf : Prometheus.CpuSurface)
    (st : Prometheus.CpuState) (p : Prometheus.PerformanceProfile)
    (hg : surf.govGlobError = none) (he : surf.eppGlobError = none)
    (hne : surf.govPaths ≠ []) (hfail : ∀ i, surf.failAt i = none) :
    Prometheus.apply_profile surf st p =
      (⟨st.idx + surf.govPaths.length + surf.eppPaths.length + 1,
        st.applied ++ surf.govPaths.map (fun q => (q, p.governor))
          ++ surf.eppPaths.map (fun q => (q, p.epp))
          ++ [(Prometheus.TURBO_PATH, if p.turbo_enabled then "0" else "1")]⟩, none) := by
  have hgov := Prometheus.write_all_succeeds surf surf.govPaths st p.governor
      (fun i _ => hfail _)
  have hepp := Prometheus.write_all_lossy_succeeds surf surf.eppPaths
      ⟨st.idx + surf.govPaths.length,
        st.applied ++ surf.govPaths.map (fun q => (q, p.governor))⟩ p.epp hfail
  simp only [Prometheus.apply_profile, Prometheus.set_governor, hg,
    List.isEmpty_eq_false.mpr hne, Bool.false_eq_true, if_false, hgov,
    Prometheus.set_epp, he]
  rcases hep : surf.eppPaths.isEmpty with _ | _
  · simp only [Bool.false_eq_true, if_false, hepp, Prometheus.set_turbo,
      Prometheus.fs_write, hfail _, Prometheus.CpuState.mk.injEq, Prod.mk.injEq,
      List.append_assoc, and_true, true_and]
  · have hepnil : surf.eppPaths = [] := List.isEmpty_iff.mp (by simp [hep])
    simp only [if_true, Prometheus.set_turbo, Prometheus.fs_write, hfail _, hepnil,
      List.map_nil, List.append_nil, List.length_nil, Prometheus.CpuState.mk.injEq,
      Prod.mk.injEq, List.append_assoc, and_true, true_and]

/-- When the governor glob matches no file, apply_profile fails immediately
and no write is attempted. -/
theorem Prometheus.apply_profile_gov_empty (surf : Prometheus.CpuSurface)
    (st : Prometheus.CpuState) (p : Prometheus.PerformanceProfile)
    (hg : surf.govGlobError = none) (hnil : surf.govPaths = []) :
    Prometheus.apply_profile surf st p = (st, some "No CPU governor control files found") := by
  simp [Prometheus.apply_profile, Prometheus.set_governor, hg, hnil]

/-! The claim theorems. -/

/-- Claim C3: applying any non-Auto fan profile on a surface where no write
fails issues exactly five writes, in the exact order manual-enable,
CPU-mode-manual, GPU-mode-manual, CPU-speed, GPU-speed; in particular both
mode switches precede any speed write. -/
theorem C3_fan_manual_write_order (surf : Boreas.EcSurface) (st : Boreas.EcState)
    (p : Boreas.FanProfile) (hp : p ≠ Boreas.FanProfile.Auto)
    (hfail : ∀ i, surf.failAt i = none) :
    Boreas.run_profile surf st p =
      (⟨st.idx + 5, st.applied ++
        [(Boreas.REG_MANUAL_CONTROL, Boreas.VAL_MANUAL_CONTROL_ENABLE),
         (Boreas.REG_CPU_FAN_MODE, Boreas.VAL_CPU_FAN_MANUAL),
         (Boreas.REG_GPU_FAN_MODE, Boreas.VAL_GPU_FAN_MANUAL),
         (Boreas.REG_CPU_FAN_WRITE, p.cpu_speed),
         (Boreas.REG_GPU_FAN_WRITE, p.gpu_speed)]⟩, none) := by
  cases p with
  | Auto => exact absurd rfl hp
  | Silent =>
    simp [Boreas.run_profile, Boreas.init_manual_control, Boreas.andThenWrite,
      Boreas.write_register, hfail, Boreas.set_fan_speeds, Boreas.validate_fan_speed,
      Boreas.FanProfile.cpu_speed, Boreas.FanProfile.gpu_speed, List.append_assoc]
  | Balanced =>
    simp [Boreas.run_profile, Boreas.init_manual_control, Boreas.andThenWrite,
      Boreas.write_register, hfail, Boreas.set_fan_speeds, Boreas.validate_fan_speed,
      Boreas.FanProfile.cpu_speed, Boreas.FanProfile.gpu_speed, List.append_assoc]
  | MaxPower =>
    simp [Boreas.run_profile, Boreas.init_manual_control, Boreas.andThenWrite,
      Boreas.write_register, hfail, Boreas.set_fan_speeds, Boreas.validate_fan_speed,
      Boreas.FanProfile.cpu_speed, Boreas.FanProfile.gpu_speed, List.append_assoc]

/-- Witness for C3 at the MaxPower profile on a surface with no failures. -/
theorem C3_fan_manual_write_order_witness :
    Boreas.run_profile okEc Boreas.ecInit Boreas.FanProfile.MaxPower =
      (⟨Boreas.ecInit.idx + 5, Boreas.ecInit.applied ++
        [(Boreas.REG_MANUAL_CONTROL, Boreas.VAL_MANUAL_CONTROL_ENABLE),
         (Boreas.REG_CPU_FAN_MODE, Boreas.VAL_CPU_FAN_MANUAL),
         (Boreas.REG_GPU_FAN_MODE, Boreas.VAL_GPU_FAN_MANUAL),
         (Boreas.REG_CPU_FAN_WRITE, Boreas.FanProfile.MaxPower.cpu_speed),
         (Boreas.REG_GPU_FAN_WRITE, Boreas.FanProfile.MaxPower.gpu_speed)]⟩, none) :=
  C3_fan_manual_write_order okEc Boreas.ecInit Boreas.FanProfile.MaxPower
    (by decide) (fun _ => rfl)

/-- Claim C4: applying the Auto fan profile on a surface where no write fails
issues exactly three writes, in the exact order CPU-mode-auto, GPU-mode-auto,
manual-disable; the manual-control disable comes last. -/
theorem C4_fan_auto_write_order (surf : Boreas.EcSurface) (st : Boreas.EcState)
    (hfail : ∀ i, surf.failAt i = none) :
    Boreas.run_profile surf st Boreas.FanProfile.Auto =
      (⟨st.idx + 3, st.applied ++
        [(Boreas.REG_CPU_FAN_MODE, Boreas.VAL_CPU_FAN_AUTO),
         (Boreas.REG_GPU_FAN_MODE, Boreas.VAL_GPU_FAN_AUTO),
         (Boreas.REG_MANUAL_CONTROL, Boreas.VAL_MANUAL_CONTROL_DISABLE)]⟩, none) := by
  simp [Boreas.run_profile, Boreas.restore_auto_control, Boreas.andThenWrite,
    Boreas.write_register, hfail, List.append_assoc]

/-- Witness for C4 on a surface with no failures. -/
theorem C4_fan_auto_write_order_witness :
    Boreas.run_profile okEc Boreas.ecInit Boreas.FanProfile.Auto =
      (⟨Boreas.ecInit.idx + 3, Boreas.ecInit.applied ++
        [(Boreas.REG_CPU_FAN_MODE, Boreas.VAL_CPU_FAN_AUTO),
         (Boreas.REG_GPU_FAN_MODE, Boreas.VAL_GPU_FAN_AUTO),
         (Boreas.REG_MANUAL_CONTROL, Boreas.VAL_MANUAL_CONTROL_DISABLE)]⟩, none) :=
  C4_fan_auto_write_order okEc Boreas.ecInit (fun _ => rfl)

/-- Claim C5: for every power-daemon profile, apply_profile writes the
governor string to every matched per-CPU governor file, then the
energy-preference string to every matched per-CPU EPP file, then the turbo
value last, and the turbo file receives "0" when the profile enables turbo
and "1" when it disables it. -/
theorem C5_power_write_order (surf : Prometheus.CpuSurface)
    (st : Prometheus.CpuState) (p : Prometheus.PerformanceProfile)
    (hg : surf.govGlobError = none) (he : surf.eppGlobError = none)
    (hne : surf.govPaths ≠ []) (hfail : ∀ i, surf.failAt i = none) :
    Prometheus.apply_profile surf st p =
      (⟨st.idx + surf.govPaths.length + surf.eppPaths.length + 1,
        st.applied ++ surf.govPaths.map (fun q => (q, p.governor))
          ++ surf.eppPaths.map (fun q => (q, p.epp))
          ++ [(Prometheus.TURBO_PATH, if p.turbo_enabled then "0" else "1")]⟩, none) :=
  Prometheus.apply_profile_ok surf st p hg he hne hfail

/-- Witness for C5: two governor files and one EPP file, WarSpeed profile. -/
theorem C5_power_write_order_witness :
    Prometheus.apply_profile okCpu Prometheus.cpuInit
        Prometheus.PerformanceProfile.WarSpeed =
      (⟨Prometheus.cpuInit.idx + okCpu.govPaths.length + okCpu.eppPaths.length + 1,
        Prometheus.cpuInit.applied
          ++ okCpu.govPaths.map
              (fun q => (q, Prometheus.PerformanceProfile.WarSpeed.governor))
          ++ okCpu.eppPaths.map
              (fun q => (q, Prometheus.PerformanceProfile.WarSpeed.epp))
          ++ [(Prometheus.TURBO_PATH,
              if Prometheus.PerformanceProfile.WarSpeed.turbo_enabled then "0" else "1")]⟩,
        none) :=
  C5_power_write_order okCpu Prometheus.cpuInit Prometheus.PerformanceProfile.WarSpeed
    rfl rfl (by decide) (fun _ => rfl)

/-- Claim C6: a governor glob matching zero paths makes apply_profile fail
with no hardware write at all, while an EPP glob matching zero paths is only
a soft warning: the operation continues to the turbo write and succeeds. -/
theorem C6_zero_glob_matches :
    (∀ (surf : Prometheus.CpuSurface) (st : Prometheus.CpuState)
        (p : Prometheus.PerformanceProfile),
      surf.govGlobError = none → surf.govPaths = [] →
      Prometheus.apply_profile surf st p =
        (st, some "No CPU governor control files found")) ∧
    (∀ (surf : Prometheus.CpuSurface) (st : Prometheus.CpuState)
        (p : Prometheus.PerformanceProfile),
      surf.govGlobError = none → surf.eppGlobError = none →
      surf.govPaths ≠ [] → surf.eppPaths = [] →
      (∀ i, surf.failAt i = none) →
      Prometheus.apply_profile surf st p =
        (⟨st.idx + surf.govPaths.length + 1,
          st.applied ++ surf.govPaths.map (fun q => (q, p.governor))
            ++ [(Prometheus.TURBO_PATH, if p.turbo_enabled then "0" else "1")]⟩, none)) := by
  constructor
  · exact fun surf st p hg hnil => Prometheus.apply_profile_gov_empty surf st p hg hnil
  · intro surf st p hg he hne hepnil hfail
    rw [Prometheus.apply_profile_ok surf st p hg he hne hfail]
    simp [hepnil]

/-- Witness for C6 on a surface whose governor glob matches nothing. -/
theorem C6_zero_glob_matches_witness :
    Prometheus.apply_profile emptyGovCpu Prometheus.cpuInit
        Prometheus.PerformanceProfile.Silent =
      (Prometheus.cpuInit, some "No CPU governor control files found") :=
  C6_zero_glob_matches.1 emptyGovCpu Prometheus.cpuInit
    Prometheus.PerformanceProfile.Silent rfl rfl

/-- Claim C10: set_epp returns success whenever the EPP glob itself succeeds,
even if writing to some or every matched EPP file fails; apply_profile thus
still proceeds to the turbo write after arbitrary per-file EPP write
failures. -/
theorem C10_epp_failures_only_logged :
    (∀ (surf : Prometheus.CpuSurface) (st : Prometheus.CpuState) (epp : String),
      surf.eppGlobError = none → (Prometheus.set_epp surf st epp).2 = none) ∧
    (∀ (surf : Prometheus.CpuSurface) (st : Prometheus.CpuState)
        (p : Prometheus.PerformanceProfile),
      surf.govGlobError = none → surf.eppGlobError = none →
      surf.govPaths ≠ [] →
      (∀ i, i < surf.govPaths.length → surf.failAt (st.idx + i) = none) →
      surf.failAt (st.idx + surf.govPaths.length + surf.eppPaths.length) = none →
      (Prometheus.apply_profile surf st p).2 = none ∧
      ∃ l, (Prometheus.apply_profile surf st p).1.applied =
        st.applied ++ surf.govPaths.map (fun q => (q, p.governor)) ++ l
          ++ [(Prometheus.TURBO_PATH, if p.turbo_enabled then "0" else "1")]) := by
  constructor
  · intro surf st epp he
    simp only [Prometheus.set_epp, he]
    split <;> rfl
  · intro surf st p hg he hne hgov hturbo
    have hwgov := Prometheus.write_all_succeeds surf surf.govPaths st p.governor hgov
    by_cases hep : surf.eppPaths.isEmpty = true
    · have hepnil : surf.eppPaths = [] := List.isEmpty_iff.mp hep
      have hturbo0 : surf.failAt (st.idx + surf.govPaths.length) = none := by
        simpa [hepnil] using hturbo
      have happly : Prometheus.apply_profile surf st p =
          (⟨st.idx + surf.govPaths.length + 1,
            (st.applied ++ surf.govPaths.map (fun q => (q, p.governor)))
              ++ [(Prometheus.TURBO_PATH, if p.turbo_enabled then "0" else "1")]⟩, none) := by
        simp only [Prometheus.apply_profile, Prometheus.set_governor, hg,
          List.isEmpty_eq_false.mpr hne, Bool.false_eq_true, if_false, hwgov,
          Prometheus.set_epp, he, hepnil, List.isEmpty_nil, if_true,
          Prometheus.set_turbo, Prometheus.fs_write, hturbo0]
      rw [happly]
      exact ⟨rfl, ⟨[], by simp⟩⟩
    · have hepbool : surf.eppPaths.isEmpty = false := by
        cases h2 : surf.eppPaths.isEmpty
        · rfl
        · exact absurd h2 hep
      obtain ⟨l0, hl0⟩ := Prometheus.write_all_lossy_applied surf surf.eppPaths
        ⟨st.idx + surf.govPaths.length,
          st.applied ++ surf.govPaths.map (fun q => (q, p.governor))⟩ p.epp
      have hidx : (Prometheus.write_all_lossy surf
          ⟨st.idx + surf.govPaths.length,
            st.applied ++ surf.govPaths.map (fun q => (q, p.governor))⟩
          surf.eppPaths p.epp).idx =
          st.idx + surf.govPaths.length + surf.eppPaths.length := by
        rw [Prometheus.write_all_lossy_idx]
      have hfailT : surf.failAt (Prometheus.write_all_lossy surf
          ⟨st.idx + surf.govPaths.length,
            st.applied ++ surf.govPaths.map (fun q => (q, p.governor))⟩
          surf.eppPaths p.epp).idx = none := by
        rw [hidx]; exact hturbo
      have happly : Prometheus.apply_profile surf st p =
          (⟨(Prometheus.write_all_lossy surf
              ⟨st.idx + surf.govPaths.length,
                st.applied ++ surf.govPaths.map (fun q => (q, p.governor))⟩
              surf.eppPaths p.epp).idx + 1,
            (Prometheus.write_all_lossy surf
              ⟨st.idx + surf.govPaths.length,
                st.applied ++ surf.govPaths.map (fun q => (q, p.governor))⟩
              surf.eppPaths p.epp).applied
              ++ [(Prometheus.TURBO_PATH, if p.turbo_enabled then "0" else "1")]⟩, none) := by
        simp only [Prometheus.apply_profile, Prometheus.set_governor, hg,
          List.isEmpty_eq_false.mpr hne, Bool.false_eq_true, if_false, hwgov,
          Prometheus.set_epp, he, hepbool, Prometheus.set_turbo, Prometheus.fs_write,
          hfailT]
      rw [happly]
      refine ⟨rfl, ⟨l0, ?_⟩⟩
      rw [hl0]

/-- Witness for C10: one governor file, one EPP file whose write (the 2nd
attempted write overall) fails, Silent profile: the call still succeeds and
the turbo write lands. -/
theorem C10_epp_failures_only_logged_witness :
    (Prometheus.apply_profile eppFailCpu Prometheus.cpuInit
        Prometheus.PerformanceProfile.Silent).2 = none ∧
    ∃ l, (Prometheus.apply_profile eppFailCpu Prometheus.cpuInit
        Prometheus.PerformanceProfile.Silent).1.applied =
      Prometheus.cpuInit.applied
        ++ eppFailCpu.govPaths.map
            (fun q => (q, Prometheus.PerformanceProfile.Silent.governor)) ++ l
        ++ [(Prometheus.TURBO_PATH,
            if Prometheus.PerformanceProfile.Silent.turbo_enabled then "0" else "1")] :=
  C10_epp_failures_only_logged.2 eppFailCpu Prometheus.cpuInit
    Prometheus.PerformanceProfile.Silent rfl rfl (by decide)
    (fun i hi => by
      have hlen : eppFailCpu.govPaths.length = 1 := rfl
      have h0 : i = 0 := by omega
      subst h0
      rfl)
    (by decide)

/-- Claim C7: any fan-speed value above 100, whether passed as CPU or GPU
speed, makes set_fan_speeds return a validation error with no hardware write
(the EC state is untouched); any value in 0-100 passes validation unchanged. -/
theorem C7_fan_speed_validation :
    (∀ (surf : Boreas.EcSurface) (st : Boreas.EcState) (cpu gpu : Nat),
      100 < cpu ∨ 100 < gpu →
      (Boreas.set_fan_speeds surf st cpu gpu).1 = st ∧
      ∃ e, (Boreas.set_fan_speeds surf st cpu gpu).2 = some e) ∧
    (∀ v, v ≤ 100 → Boreas.validate_fan_speed v = .ok v) := by
  constructor
  · intro surf st cpu gpu h
    by_cases hc : 100 < cpu
    · constructor <;> simp [Boreas.set_fan_speeds, Boreas.validate_fan_speed, hc]
    · have hg : 100 < gpu := h.resolve_left hc
      constructor <;> simp [Boreas.set_fan_speeds, Boreas.validate_fan_speed, hc, hg]
  · intro v hv
    simp [Boreas.validate_fan_speed, Nat.not_lt.mpr hv]

/-- Witness for C7 at CPU speed 150 on an otherwise healthy surface. -/
theorem C7_fan_speed_validation_witness :
    (Boreas.set_fan_speeds okEc Boreas.ecInit 150 50).1 = Boreas.ecInit ∧
    ∃ e, (Boreas.set_fan_speeds okEc Boreas.ecInit 150 50).2 = some e :=
  C7_fan_speed_validation.1 okEc Boreas.ecInit 150 50 (Or.inl (by decide))

/-- Claim C2: in both daemons verify_hardware succeeds exactly when the
trimmed product-name string contains an allow-list entry as a substring; the
two daemons behave identically; the sample strings are accepted and rejected
as documented, and an unreadable identity file is a fatal failure. -/
theorem C2_hardware_gate :
    (∀ s : String, (Boreas.verify_hardware (some s) = .ok ()) ↔
      Boreas.SUPPORTED_MODELS.any (fun model => strContains (strTrim s) model) = true) ∧
    (∀ f : Option String, Boreas.verify_hardware f = Prometheus.verify_hardware f) ∧
    Boreas.verify_hardware (some "Nitro AN515-57 Rev2") = .ok () ∧
    Prometheus.verify_hardware (some "Nitro AN515-57 Rev2") = .ok () ∧
    (∃ e, Boreas.verify_hardware (some "Generic Laptop") = .error e) ∧
    (∃ e, Prometheus.verify_hardware (some "Generic Laptop") = .error e) ∧
    (∃ e, Boreas.verify_hardware none = .error e) ∧
    (∃ e, Prometheus.verify_hardware none = .error e) := by
  refine ⟨?_, ?_, rfl, rfl, ⟨_, rfl⟩, ⟨_, rfl⟩, ⟨_, rfl⟩, ⟨_, rfl⟩⟩
  · intro s
    by_cases h : Boreas.SUPPORTED_MODELS.any (fun model => strContains (strTrim s) model) = true
    · simp [Boreas.verify_hardware, h]
    · simp [Boreas.verify_hardware, h]
  · intro f
    cases f <;> rfl

/-- Witness for C2, instantiating the gate equivalence at the documented
accepted identity string. -/
theorem C2_hardware_gate_witness :
    (Boreas.verify_hardware (some "Nitro AN515-57 Rev2") = .ok ()) ↔
      Boreas.SUPPORTED_MODELS.any
        (fun model => strContains (strTrim "Nitro AN515-57 Rev2") model) = true :=
  C2_hardware_gate.1 "Nitro AN515-57 Rev2"

/-- Claim C8: profile-name resolution in both daemons depends only on the
case-folded name; the aliases max, maxpower and max_power all resolve to the
maximum-performance profile (the MaxPower variant); and any unrecognized name
makes set_profile return InvalidArgs listing the valid names, with the whole
service state (hardware trace and CurrentProfileState) unchanged. -/
theorem C8_name_resolution :
    (∀ s t : String, lowerKey s = lowerKey t →
      Boreas.parse_profile s = Boreas.parse_profile t ∧
      Prometheus.parse_profile s = Prometheus.parse_profile t) ∧
    (Boreas.parse_profile "max" = some Boreas.FanProfile.MaxPower ∧
     Boreas.parse_profile "maxpower" = some Boreas.FanProfile.MaxPower ∧
     Boreas.parse_profile "max_power" = some Boreas.FanProfile.MaxPower) ∧
    (∀ (surf : Boreas.EcSurface) (st : Boreas.BoreasState) (s : String),
      Boreas.parse_profile s = none →
      Boreas.set_fan_profile surf st s =
        (st, .error (.InvalidArgs
          ("Unknown profile: " ++ s ++ ". Valid: silent, balanced, maxpower, auto")))) ∧
    (∀ (surf : Prometheus.CpuSurface) (st : Prometheus.PrometheusState) (s : String),
      Prometheus.parse_profile s = none →
      Prometheus.set_performance_profile surf st s =
        (st, .error (.InvalidArgs
          ("Unknown profile: " ++ s ++ ". Valid: silent, balanced, warspeed")))) := by
  refine ⟨?_, ⟨by decide, by decide, by decide⟩, ?_, ?_⟩
  · intro s t h
    constructor
    · unfold Boreas.parse_profile
      rw [h]
    · unfold Prometheus.parse_profile
      rw [h]
  · intro surf st s hs
    simp [Boreas.set_fan_profile, hs]
  · intro surf st s hs
    simp [Prometheus.set_performance_profile, hs]

/-- Witness for C8: MAXPOWER and maxpower resolve identically in both
daemons. -/
theorem C8_name_resolution_witness :
    Boreas.parse_profile "MAXPOWER" = Boreas.parse_profile "maxpower" ∧
    Prometheus.parse_profile "MAXPOWER" = Prometheus.parse_profile "maxpower" :=
  C8_name_resolution.1 "MAXPOWER" "maxpower" (by decide)

/-- Claim C9: get_current_profile returns the daemon default sentinel before
any successful set_profile (Auto for the fan daemon, Unknown for the power
daemon) and, after a successful set_profile, exactly the canonical name of
the profile that was applied. -/
theorem C9_current_profile_reporting :
    Boreas.get_current_profile Boreas.initial_state = "Auto" ∧
    Prometheus.get_current_profile Prometheus.initial_state = "Unknown" ∧
    (∀ (surf : Boreas.EcSurface) (st : Boreas.BoreasState) (s : String)
        (p : Boreas.FanProfile) (r : String),
      Boreas.parse_profile s = some p →
      (Boreas.set_fan_profile surf st s).2 = .ok r →
      Boreas.get_current_profile (Boreas.set_fan_profile surf st s).1 = p.name) ∧
    (∀ (surf : Prometheus.CpuSurface) (st : Prometheus.PrometheusState) (s : String)
        (p : Prometheus.PerformanceProfile) (r : String),
      Prometheus.parse_profile s = some p →
      (Prometheus.set_performance_profile surf st s).2 = .ok r →
      Prometheus.get_current_profile (Prometheus.set_performance_profile surf st s).1
        = p.name) := by
  refine ⟨rfl, rfl, ?_, ?_⟩
  · intro surf st s p r hp hok
    simp only [Boreas.set_fan_profile, hp] at hok ⊢
    rcases hr : Boreas.run_profile surf st.ec p with ⟨ec2, o⟩
    rw [hr] at hok
    cases o with
    | some e => exact Except.noConfusion hok
    | none => rfl
  · intro surf st s p r hp hok
    simp only [Prometheus.set_performance_profile, hp] at hok ⊢
    rcases hr : Prometheus.apply_profile surf st.cpu p with ⟨cpu2, o⟩
    rw [hr] at hok
    cases o with
    | some e => exact Except.noConfusion hok
    | none => rfl

/-- Witness for C9: a successful balanced set_fan_profile reports Balanced. -/
theorem C9_current_profile_reporting_witness :
    Boreas.get_current_profile (Boreas.set_fan_profile okEc Boreas.initial_state "balanced").1
      = Boreas.FanProfile.Balanced.name :=
  C9_current_profile_reporting.2.2.1 okEc Boreas.initial_state "balanced"
    Boreas.FanProfile.Balanced "Fan profile set to: balanced" (by decide) rfl

/-- Counterexample to claim C1 as stated: on the power daemon, with one
governor file and one EPP file whose write (attempted-write number 1, the
2nd overall) fails, set_performance_profile still returns Ok; three writes
were attempted but only the governor and turbo writes were applied, so a
hardware write in the sequence failed yet no OperationFailed error was
returned. -/
theorem C1_counterexample :
    eppFailCpu.eppPaths = ["epp0"] ∧
    eppFailCpu.failAt 1 = some "Permission denied" ∧
    (Prometheus.set_performance_profile eppFailCpu Prometheus.initial_state
        "silent").1.cpu.idx = 3 ∧
    (Prometheus.set_performance_profile eppFailCpu Prometheus.initial_state
        "silent").1.cpu.applied
      = [("gov0", "powersave"), (Prometheus.TURBO_PATH, "1")] ∧
    (Prometheus.set_performance_profile eppFailCpu Prometheus.initial_state "silent").2
      = .ok "Performance profile set to: silent" :=
  ⟨rfl, rfl, rfl, rfl, rfl⟩

/-- Claim C1 as amended: in either daemon, when the failed hardware write is
one whose error the sequence propagates (every fan-daemon write; for the
power daemon the whole apply sequence short of the best-effort per-file EPP
writes), set_profile returns OperationFailed carrying the underlying error
text and CurrentProfileState keeps its prior value; and in the documented
scenario (MaxPower on the fan daemon, 4th write failing) the manual-enable
and both mode writes remain applied while the profile cell still holds Auto,
not MaxPower. -/
theorem C1_failure_propagation :
    (∀ (surf : Boreas.EcSurface) (st : Boreas.BoreasState) (s : String)
        (p : Boreas.FanProfile) (e : String),
      Boreas.parse_profile s = some p →
      (Boreas.run_profile surf st.ec p).2 = some e →
      (Boreas.set_fan_profile surf st s).2 = .error (.Failed ("EC error: " ++ e)) ∧
      (Boreas.set_fan_profile surf st s).1.current_profile = st.current_profile) ∧
    (∀ (surf : Prometheus.CpuSurface) (st : Prometheus.PrometheusState) (s : String)
        (p : Prometheus.PerformanceProfile) (e : String),
      Prometheus.parse_profile s = some p →
      (Prometheus.apply_profile surf st.cpu p).2 = some e →
      (Prometheus.set_performance_profile surf st s).2
          = .error (.Failed ("CPU control error: " ++ e)) ∧
      (Prometheus.set_performance_profile surf st s).1.current_profile
          = st.current_profile) ∧
    ((Boreas.set_fan_profile ecFail4 Boreas.initial_state "MaxPower").2
        = .error (.Failed ("EC error: " ++ "Input/output error")) ∧
     (Boreas.set_fan_profile ecFail4 Boreas.initial_state "MaxPower").1.ec.applied
        = [(Boreas.REG_MANUAL_CONTROL, Boreas.VAL_MANUAL_CONTROL_ENABLE),
           (Boreas.REG_CPU_FAN_MODE, Boreas.VAL_CPU_FAN_MANUAL),
           (Boreas.REG_GPU_FAN_MODE, Boreas.VAL_GPU_FAN_MANUAL)] ∧
     (Boreas.set_fan_profile ecFail4 Boreas.initial_state "MaxPower").1.current_profile
        = Boreas.FanProfile.Auto ∧
     Boreas.FanProfile.Auto ≠ Boreas.FanProfile.MaxPower) := by
  refine ⟨?_, ?_, rfl, rfl, rfl, by decide⟩
  · intro surf st s p e hp hrun
    simp only [Boreas.set_fan_profile, hp]
    rcases hr : Boreas.run_profile surf st.ec p with ⟨ec2, o⟩
    rw [hr] at hrun
    cases o with
    | none => exact Option.noConfusion hrun
    | some e0 =>
      obtain rfl : e0 = e := Option.some.inj hrun
      exact ⟨rfl, rfl⟩
  · intro surf st s p e hp hrun
    simp only [Prometheus.set_performance_profile, hp]
    rcases hr : Prometheus.apply_profile surf st.cpu p with ⟨cpu2, o⟩
    rw [hr] at hrun
    cases o with
    | none => exact Option.noConfusion hrun
    | some e0 =>
      obtain rfl : e0 = e := Option.some.inj hrun
      exact ⟨rfl, rfl⟩

/-- Witness for C1, instantiating the fan-daemon branch at a surface whose
first write fails. -/
theorem C1_failure_propagation_witness :
    (Boreas.set_fan_profile ecFail1 Boreas.initial_state "silent").2
        = .error (.Failed ("EC error: " ++ "boom")) ∧
    (Boreas.set_fan_profile ecFail1 Boreas.initial_state "silent").1.current_profile
        = Boreas.initial_state.current_profile :=
  C1_failure_propagation.1 ecFail1 Boreas.initial_state "silent"
    Boreas.FanProfile.Silent "boom" (by decide) (by decide)
